import Mathlib

/-!
# Wallet chat client: formal model of the core logic

Shallow embedding of the de-duplicated core of the repository
(`src/src/walletapl.jsx`, the token-based localStorage variant, and
`src/unnamed/part_000`, whose first section is the in-memory variant and whose
second section is the localStorage variant without tokens).

Naming convention: definitions with suffix `W` come from `src/src/walletapl.jsx`
(the "walletapl" variant); definitions with suffix `M` come from the in-memory
variant at the top of `src/unnamed/part_000`.  JavaScript `undefined` and
absent object properties are both modelled as `Option.none`; JavaScript string
truthiness (`!s` is true exactly for the empty string) is modelled explicitly.
JavaScript's `trim()` and the regex class `\s` are modelled on the ASCII
whitespace characters (`Char.isWhitespace`), which is exact for every input
this application produces.
-/

/-- JavaScript `String.prototype.trim`, written structurally over the character
list: drop whitespace from both ends. -/
def jsTrim (s : String) : String :=
  ⟨((s.toList.dropWhile Char.isWhitespace).reverse.dropWhile Char.isWhitespace).reverse⟩

/-- Split a character list at every occurrence of `sep` (JavaScript
`String.prototype.split` with a single-character separator). -/
def splitOnChar (sep : Char) (cs : List Char) : List (List Char) :=
  cs.foldr
    (fun c acc =>
      match acc with
      | a :: rest => if c == sep then [] :: a :: rest else (c :: a) :: rest
      | [] => [[c]])
    [[]]

/-- Outcome of calling a JavaScript function that may throw: either a thrown
`TypeError` (the only exception relevant here, raised by calling a method on
`undefined`) or a normal return value. -/
inductive VOut where
  | thrownTypeError : VOut
  | ret : Option String → VOut
deriving DecidableEq, Repr

/-- JavaScript truthiness of a possibly-absent string: `undefined` and `""`
are falsy, every other string is truthy. -/
def jsTruthyStr : Option String → Bool
  | none => false
  | some s => s ≠ ""

/-- The character class `[a-zA-Z0-9_]`. -/
def isWordChar (c : Char) : Bool :=
  (('a' ≤ c ∧ c ≤ 'z') ∨ ('A' ≤ c ∧ c ≤ 'Z') ∨ c.isDigit ∨ c = '_' : Bool)

/-- `/^[a-zA-Z0-9_]+$/.test t` — one or more word characters and nothing else. -/
def matchesWordRegex (t : String) : Bool :=
  !t.toList.isEmpty && t.toList.all isWordChar

/-- The character class `[a-fA-F0-9]` (a hexadecimal digit, case-insensitive). -/
def isHexChar (c : Char) : Bool :=
  (c.isDigit ∨ ('a' ≤ c ∧ c ≤ 'f') ∨ ('A' ≤ c ∧ c ≤ 'F') : Bool)

/-- `/^0x[a-fA-F0-9]{40}$/.test t` — the literal characters `0x` followed by
exactly forty hexadecimal digits, and nothing else. -/
def matchesAddressRegex (t : String) : Bool :=
  match t.toList with
  | c1 :: c2 :: rest => c1 == '0' && c2 == 'x' && rest.length == 40 && rest.all isHexChar
  | _ => false

/-- `validators.username` of `walletapl.jsx` (lines 202-208): required,
trimmed length in `[3,20]`, word characters only (regex tested on the trimmed
value). -/
def usernameWs (v : String) : Option String :=
  if v = "" ∨ jsTrim v = "" then some "Username is required"
  else if (jsTrim v).length < 3 then some "Username must be at least 3 characters"
  else if (jsTrim v).length > 20 then some "Username must be less than 20 characters"
  else if ¬ matchesWordRegex (jsTrim v) then
    some "Username can only contain letters, numbers, and underscores"
  else none

/-- `validators.username` of the in-memory variant (`part_000` lines 67-72):
same as `usernameWs` but with NO maximum-length check. -/
def usernameMs (v : String) : Option String :=
  if v = "" ∨ jsTrim v = "" then some "Username is required"
  else if (jsTrim v).length < 3 then some "Username must be at least 3 characters"
  else if ¬ matchesWordRegex (jsTrim v) then
    some "Username can only contain letters, numbers, and underscores"
  else none

/-- The fixed special-character set `@$!%*?&` of the walletapl password rule. -/
def isSpecialChar (c : Char) : Bool :=
  c = '@' ∨ c = '$' ∨ c = '!' ∨ c = '%' ∨ c = '*' ∨ c = '?' ∨ c = '&'

/-- `validators.password` of `walletapl.jsx` (lines 210-218): required, length
at least 8, at least one lowercase, uppercase, digit and special character,
checked in that order. -/
def passwordWs (v : String) : Option String :=
  if v = "" then some "Password is required"
  else if v.length < 8 then some "Password must be at least 8 characters"
  else if ¬ v.toList.any Char.isLower then
    some "Password must contain at least one lowercase letter"
  else if ¬ v.toList.any Char.isUpper then
    some "Password must contain at least one uppercase letter"
  else if ¬ v.toList.any Char.isDigit then
    some "Password must contain at least one number"
  else if ¬ v.toList.any isSpecialChar then
    some "Password must contain at least one special character (@$!%*?&)"
  else none

/-- `validators.password` of the in-memory variant (`part_000` lines 74-81):
like `passwordWs` but without the special-character rule. -/
def passwordMs (v : String) : Option String :=
  if v = "" then some "Password is required"
  else if v.length < 8 then some "Password must be at least 8 characters"
  else if ¬ v.toList.any Char.isLower then
    some "Password must contain at least one lowercase letter"
  else if ¬ v.toList.any Char.isUpper then
    some "Password must contain at least one uppercase letter"
  else if ¬ v.toList.any Char.isDigit then
    some "Password must contain at least one number"
  else none

/-- A character the email regex class `[^\s@]` rejects. -/
def isEmailForbidden (c : Char) : Bool :=
  c.isWhitespace ∨ c = '@'

/-- `cs` contains a `'.'` that is neither its first nor its last character —
the shape `[^\s@]+\.[^\s@]+` demands of the domain part. -/
def hasInnerDot (cs : List Char) : Bool :=
  ((cs.drop 1).dropLast).contains '.'

/-- `/^[^\s@]+@[^\s@]+\.[^\s@]+$/.test t`. -/
def matchesEmailRegex (t : String) : Bool :=
  match splitOnChar '@' t.toList with
  | [localCs, domCs] =>
      !localCs.isEmpty && localCs.all (fun c => ¬ isEmailForbidden c) &&
      domCs.all (fun c => ¬ isEmailForbidden c) && hasInnerDot domCs
  | _ => false

/-- `validators.email` (identical in both variants): required, permissive
`local@domain.tld` shape tested on the trimmed value. -/
def emailWs (v : String) : Option String :=
  if v = "" ∨ jsTrim v = "" then some "Email is required"
  else if ¬ matchesEmailRegex (jsTrim v) then some "Please enter a valid email address"
  else none

/-- String-input body of `validators.phone` of `walletapl.jsx` (lines 227-233):
empty (after trim) is accepted as optional; otherwise the digits remaining
after stripping non-digits (`replace(/\D/g,'')`) must number exactly ten
(`/^\d{10}$/`). -/
def phoneWs (v : String) : Option String :=
  if jsTrim v = "" then none
  else if (v.toList.filter Char.isDigit).length = 10 then none
  else some "Phone number must be exactly 10 digits"

/-- `validators.phone` of `walletapl.jsx` on a string-or-undefined input.  The
source reads `value.trim()` with NO undefined-guard, so an `undefined` input
throws a `TypeError` before anything else runs. -/
def phoneW : Option String → VOut
  | none => .thrownTypeError
  | some v => .ret (phoneWs v)

/-- `validators.phone` of the in-memory variant (`part_000` lines 90-96): the
field is required there, and the `!value` guard makes `undefined` safe. -/
def phoneM : Option String → VOut
  | none => .ret (some "Phone number is required")
  | some v =>
      .ret (if v = "" ∨ jsTrim v = "" then some "Phone number is required"
            else if (v.toList.filter Char.isDigit).length = 10 then none
            else some "Phone number must be exactly 10 digits")

/-- `validators.dob` of the in-memory variant (`part_000` lines 98-101): only
a required-check (`!value`), no date arithmetic. -/
def dobM : Option String → VOut
  | none => .ret (some "Date of birth is required")
  | some v => .ret (if v = "" then some "Date of birth is required" else none)

/-- A calendar date with a 1-based month, as read off a `YYYY-MM-DD` string;
`new Date(y, m, d)` versus the ISO parse is modelled in a single (UTC)
timezone. -/
structure SDate where
  y : Nat
  m : Nat
  d : Nat
deriving DecidableEq, Repr

/-- Chronological order on dates: with months and days below 100 this numeric
key is exactly the epoch-millisecond order JavaScript compares `Date`s by. -/
def SDate.key (dt : SDate) : Nat := dt.y * 10000 + dt.m * 100 + dt.d

/-- Digit run to a number, as JavaScript's `Date` parser reads `YYYY`/`MM`/`DD`. -/
def natOfDigits (cs : List Char) : Nat :=
  cs.foldl (fun n c => n * 10 + (c.toNat - '0'.toNat)) 0

/-- Parse a `YYYY-MM-DD` string (the value an HTML date input yields); any
other shape gives `none`, modelling JavaScript's `Invalid Date`, whose `NaN`
comparisons are all false. -/
def parseSDate (v : String) : Option SDate :=
  match splitOnChar '-' v.toList with
  | [ys, ms, ds] =>
      if !ys.isEmpty && ys.all Char.isDigit && !ms.isEmpty && ms.all Char.isDigit &&
         !ds.isEmpty && ds.all Char.isDigit then
        some ⟨natOfDigits ys, natOfDigits ms, natOfDigits ds⟩
      else none
  | _ => none

/-- String-input body of `validators.dob` of `walletapl.jsx` (lines 235-245):
empty is optional; otherwise the parsed date must lie between 120 and 13 years
before `today` (an invalid date compares false on both bounds and passes). -/
def dobWs (today : SDate) (v : String) : Option String :=
  if jsTrim v = "" then none
  else
    match parseSDate v with
    | none => none
    | some dt =>
        if SDate.key ⟨today.y - 13, today.m, today.d⟩ < dt.key then
          some "You must be at least 13 years old"
        else if dt.key < SDate.key ⟨today.y - 120, today.m, today.d⟩ then
          some "Please enter a valid date of birth"
        else none

/-- `validators.dob` of `walletapl.jsx` on a string-or-undefined input: like
`phoneW` it reads `value.trim()` with no undefined-guard, so `undefined`
throws a `TypeError`. -/
def dobW (today : SDate) : Option String → VOut
  | none => .thrownTypeError
  | some v => .ret (dobWs today v)

/-- `validators.walletAddress` of the in-memory variant (`part_000` lines
103-107): required, then `/^0x[a-fA-F0-9]{40}$/` tested on the trimmed value.
(`walletapl.jsx` delegates the same format check to the external library call
`ethers.isAddress`.) -/
def walletAddressMs (v : String) : Option String :=
  if v = "" ∨ jsTrim v = "" then some "Wallet address is required"
  else if ¬ matchesAddressRegex (jsTrim v) then some "Please enter a valid Ethereum address"
  else none

/-- The spec's wording for a canonical wallet address: exactly the two
characters `0x` followed by 40 hexadecimal digits, hex digits accepted
case-insensitively (written from the spec, for comparison with the source's
regex). -/
def specCanonicalAddress (t : String) : Prop :=
  t.length = 42 ∧ t.toList.take 2 = ['0', 'x'] ∧ ∀ c ∈ t.toList.drop 2, isHexChar c

instance (t : String) : Decidable (specCanonicalAddress t) := by
  unfold specCanonicalAddress; infer_instance

/-- A string's length is the length of its character list. -/
lemma string_length_eq_toList (t : String) : t.length = t.toList.length := rfl

/-- The `!value || value.trim().length === 0` guard collapses, on strings, to
emptiness of the trimmed value. -/
lemma emptyGuard_iff (v : String) : (v = "" ∨ jsTrim v = "") ↔ jsTrim v = "" := by
  constructor
  · rintro (rfl | h)
    · rfl
    · exact h
  · exact Or.inr

lemma matchesAddressRegex_iff_spec (t : String) :
    matchesAddressRegex t = true ↔ specCanonicalAddress t := by
  unfold matchesAddressRegex specCanonicalAddress
  rw [string_length_eq_toList]
  cases ht : t.toList with
  | nil => simp
  | cons c1 cs =>
      cases cs with
      | nil => simp
      | cons c2 rest =>
          constructor
          · intro h
            simp only [Bool.and_eq_true, beq_iff_eq, List.all_eq_true] at h
            obtain ⟨⟨⟨rfl, rfl⟩, hlen⟩, hall⟩ := h
            refine ⟨?_, by simp, ?_⟩
            · simp only [List.length_cons]; omega
            · intro c hc
              exact hall c (by simpa using hc)
          · rintro ⟨hlen, htake, hall⟩
            have h12 : c1 = '0' ∧ c2 = 'x' := by simpa using htake
            obtain ⟨rfl, rfl⟩ := h12
            have hr : rest.length = 40 := by
              simp only [List.length_cons] at hlen; omega
            show ('0' == '0' && 'x' == 'x' && (rest.length == 40) && rest.all isHexChar) = true
            simp only [hr, beq_self_eq_true, Bool.true_and, Bool.and_true]
            exact List.all_eq_true.mpr (fun c hc => hall c (by simpa using hc))

/-- C2: `validators.walletAddress(a)` (in-repository implementation, the
in-memory variant's regex check; `walletapl.jsx` delegates the identical
format test to `ethers.isAddress`) returns `null` exactly when `trim(a)` is
`0x` followed by 40 case-insensitive hex digits. -/
theorem walletAddress_null_iff_canonical (a : String) :
    walletAddressMs a = none ↔ specCanonicalAddress (jsTrim a) := by
  unfold walletAddressMs
  rw [← matchesAddressRegex_iff_spec]
  rcases h : matchesAddressRegex (jsTrim a) with _ | _
  · constructor
    · intro hnull
      by_cases hg : a = "" ∨ jsTrim a = ""
      · simp [hg] at hnull
      · simp [hg, h] at hnull
    · intro hfalse; exact absurd hfalse (by simp)
  · have hne : ¬ (a = "" ∨ jsTrim a = "") := by
      rw [emptyGuard_iff]
      intro he
      rw [he] at h
      exact absurd h (by decide)
    simp [hne, h]

/-- C3 (code bug): in `walletapl.jsx` the `phone` and `dob` validators call
`value.trim()` with no undefined-guard and therefore throw a `TypeError` on an
`undefined` input, contradicting the validator contract
`(string|undefined) -> ErrorMessage|null`; the in-memory variant's `phone` and
`dob` guard `undefined` and return an error message instead. -/
theorem phone_dob_throw_on_undefined :
    phoneW none = VOut.thrownTypeError ∧
    dobW ⟨2026, 10, 11⟩ none = VOut.thrownTypeError ∧
    phoneM none = VOut.ret (some "Phone number is required") ∧
    dobM none = VOut.ret (some "Date of birth is required") :=
  ⟨rfl, rfl, rfl, rfl⟩

/-- The property C4 claims of a username validator, at one string `s`:
`null` exactly when the trimmed length is in `[3,20]` and `s` itself matches
`^[A-Za-z0-9_]+$`. -/
def usernameClaim (validator : String → Option String) (s : String) : Prop :=
  validator s = none ↔
    (3 ≤ (jsTrim s).length ∧ (jsTrim s).length ≤ 20 ∧ matchesWordRegex s = true)

/-- C4 counterexample: the in-memory variant's `username` has no maximum-length
check, so it accepts a 21-character name; and `walletapl.jsx` tests the regex on
the trimmed value, so it accepts `" abc "` although `" abc "` itself does not
match `^[A-Za-z0-9_]+$`.  Both falsify C4 as stated. -/
theorem usernameClaim_false :
    ¬ usernameClaim usernameMs "aaaaaaaaaaaaaaaaaaaaa" ∧
    ¬ usernameClaim usernameWs " abc " := by
  unfold usernameClaim
  exact ⟨by decide, by decide⟩

/-- C4 (amended): `walletapl.jsx`'s `username` returns `null` iff the trimmed
length is in `[3,20]` and the TRIMMED value matches `^[A-Za-z0-9_]+$`; the
in-memory variant's `username` returns `null` iff the trimmed length is at
least 3 (no upper bound) and the trimmed value matches the regex. -/
theorem username_null_iff :
    (∀ s : String, usernameWs s = none ↔
      (3 ≤ (jsTrim s).length ∧ (jsTrim s).length ≤ 20 ∧ matchesWordRegex (jsTrim s) = true)) ∧
    (∀ s : String, usernameMs s = none ↔
      (3 ≤ (jsTrim s).length ∧ matchesWordRegex (jsTrim s) = true)) := by
  constructor
  · intro s
    unfold usernameWs
    by_cases hg : s = "" ∨ jsTrim s = ""
    · have he : jsTrim s = "" := (emptyGuard_iff s).mp hg
      rw [if_pos hg]
      constructor
      · intro h; exact absurd h (by simp)
      · rintro ⟨h3, -, -⟩
        rw [he] at h3
        exact absurd h3 (by decide)
    · rw [if_neg hg]
      by_cases h3 : (jsTrim s).length < 3
      · rw [if_pos h3]
        constructor
        · intro h; exact absurd h (by simp)
        · rintro ⟨h3', -, -⟩; omega
      · rw [if_neg h3]
        by_cases h20 : (jsTrim s).length > 20
        · rw [if_pos h20]
          constructor
          · intro h; exact absurd h (by simp)
          · rintro ⟨-, h20', -⟩; omega
        · rw [if_neg h20]
          by_cases hw : matchesWordRegex (jsTrim s) = true
          · rw [if_neg (not_not_intro hw)]
            exact ⟨fun _ => ⟨by omega, by omega, hw⟩, fun _ => rfl⟩
          · rw [if_pos hw]
            constructor
            · intro h; exact absurd h (by simp)
            · rintro ⟨-, -, hw'⟩; exact absurd hw' hw
  · intro s
    unfold usernameMs
    by_cases hg : s = "" ∨ jsTrim s = ""
    · have he : jsTrim s = "" := (emptyGuard_iff s).mp hg
      rw [if_pos hg]
      constructor
      · intro h; exact absurd h (by simp)
      · rintro ⟨h3, -⟩
        rw [he] at h3
        exact absurd h3 (by decide)
    · rw [if_neg hg]
      by_cases h3 : (jsTrim s).length < 3
      · rw [if_pos h3]
        constructor
        · intro h; exact absurd h (by simp)
        · rintro ⟨h3', -⟩; omega
      · rw [if_neg h3]
        by_cases hw : matchesWordRegex (jsTrim s) = true
        · rw [if_neg (not_not_intro hw)]
          exact ⟨fun _ => ⟨by omega, hw⟩, fun _ => rfl⟩
        · rw [if_pos hw]
          constructor
          · intro h; exact absurd h (by simp)
          · rintro ⟨-, hw'⟩; exact absurd hw' hw

/-!
## Data model: AuthRecord, sessions, JSON persistence

`AuthRecord` models the object stored by `AuthStorage`: every field is
optional because the app builds these objects with different subsets of
properties (`{address, ts}` after a manual connect, `{address, signature,
challenge, ts}` after a MetaMask connect, plus `user`/`token` after login);
a JavaScript property that is absent or `undefined` is `none`.
-/

/-- A registered user as the backend returns it (`{username, walletAddress}`). -/
structure UserRef where
  username : String
  walletAddress : String
deriving DecidableEq, Repr

/-- The session/auth record kept by `AuthStorage` (`walletapl.jsx` lines
178-198 durable variant, `part_000` lines 5-11 in-memory variant). -/
structure AuthRecord where
  address : Option String
  signature : Option String
  challenge : Option String
  ts : Option Nat
  user : Option UserRef
  token : Option String
deriving DecidableEq, Repr

/-- A JSON value, the interchange type of `JSON.stringify`/`JSON.parse`.
The string layer (`Json` to text and back) is the JavaScript runtime's and is
an exact inverse by its specification, so the durable store is modelled at the
`Json` level. -/
inductive Json where
  | null : Json
  | bool : Bool → Json
  | num : Nat → Json
  | str : String → Json
  | arr : List Json → Json
  | obj : List (String × Json) → Json
deriving BEq, Repr

/-- Read a JSON string value. -/
def Json.getStr : Json → Option String
  | .str s => some s
  | _ => none

/-- Read a JSON number value. -/
def Json.getNum : Json → Option Nat
  | .num n => some n
  | _ => none

/-- `JSON.stringify` of a `UserRef`. -/
def userToJson (u : UserRef) : Json :=
  .obj [("username", .str u.username), ("walletAddress", .str u.walletAddress)]

/-- Read a `UserRef` back out of a JSON value. -/
def userFromJson : Json → Option UserRef
  | .obj fields =>
      match fields.lookup "username", fields.lookup "walletAddress" with
      | some (.str u), some (.str w) => some ⟨u, w⟩
      | _, _ => none
  | _ => none

/-- `JSON.stringify` of an `AuthRecord`: properties that are `undefined` are
omitted from the serialized object. -/
def authToJson (r : AuthRecord) : Json :=
  .obj ((match r.address with | some a => [("address", Json.str a)] | none => []) ++
        (match r.signature with | some a => [("signature", Json.str a)] | none => []) ++
        (match r.challenge with | some a => [("challenge", Json.str a)] | none => []) ++
        (match r.ts with | some n => [("ts", Json.num n)] | none => []) ++
        (match r.user with | some u => [("user", userToJson u)] | none => []) ++
        (match r.token with | some t => [("token", Json.str t)] | none => []))

/-- `JSON.parse` of a stored auth object back into an `AuthRecord`; any
missing property is `none`, mirroring a property read on the parsed object. -/
def authFromJson : Json → Option AuthRecord
  | .obj fields =>
      some { address := (fields.lookup "address").bind Json.getStr,
             signature := (fields.lookup "signature").bind Json.getStr,
             challenge := (fields.lookup "challenge").bind Json.getStr,
             ts := (fields.lookup "ts").bind Json.getNum,
             user := (fields.lookup "user").bind userFromJson,
             token := (fields.lookup "token").bind Json.getStr }
  | _ => none

/-- The browser's `localStorage` restricted to the single key
`"secureChatAuth"` this app uses; the stored text is modelled at the `Json`
level (see `Json`). -/
structure BrowserStore where
  secureChatAuth : Option Json

/-- `AuthStorage.setAuth` of the durable variant (`walletapl.jsx` lines
188-194): `localStorage.setItem(LOCAL_STORAGE_KEY, JSON.stringify(auth))`. -/
def setAuthL (r : AuthRecord) (_st : BrowserStore) : BrowserStore :=
  ⟨some (authToJson r)⟩

/-- `AuthStorage.getAuth` of the durable variant (`walletapl.jsx` lines
179-187): parse the stored value, treating absent or unparseable data as
`null`. -/
def getAuthL (st : BrowserStore) : Option AuthRecord :=
  st.secureChatAuth.bind authFromJson

/-- `AuthStorage.clearAuth` of the durable variant. -/
def clearAuthL (_st : BrowserStore) : BrowserStore := ⟨none⟩

/-- A page reload: `localStorage` survives unchanged, and the fresh page reads
the same underlying key-value store. -/
def pageReload (st : BrowserStore) : BrowserStore := st

/-- `AuthStorage` of the in-memory variant (`part_000` lines 5-11): a module
variable, no serialization. -/
def setAuthM (r : AuthRecord) (_st : Option AuthRecord) : Option AuthRecord := some r

/-- `AuthStorage.getAuth`, in-memory variant. -/
def getAuthM (st : Option AuthRecord) : Option AuthRecord := st

lemma userFromJson_userToJson (u : UserRef) : userFromJson (userToJson u) = some u := by
  cases u; rfl

lemma authFromJson_authToJson (r : AuthRecord) : authFromJson (authToJson r) = some r := by
  obtain ⟨a, sg, ch, ts, u, tk⟩ := r
  cases a <;> cases sg <;> cases ch <;> cases ts <;> cases u <;> cases tk <;>
    simp [authToJson, authFromJson, userFromJson_userToJson, List.lookup,
      Json.getStr, Json.getNum]

/-- C8: storing an `AuthRecord` and reading it back yields a deep-equal
record, for the durable (localStorage + JSON) policy even across a simulated
page reload (a fresh read of the persisted key-value store), and for the
in-memory policy within the page's lifetime. -/
theorem authStorage_round_trip (r : AuthRecord) (st : BrowserStore) (m : Option AuthRecord) :
    getAuthL (pageReload (setAuthL r st)) = some r ∧
    getAuthL (setAuthL r st) = some r ∧
    getAuthM (setAuthM r m) = some r :=
  ⟨authFromJson_authToJson r, authFromJson_authToJson r, rfl⟩

/-!
## Balance fetcher

`fetchBalances` fans out one native-coin lookup and one lookup per configured
token, waits for all of them to settle, and publishes the resulting set.  The
individual JSON-RPC lookups are external, so the model takes each lookup's
settled outcome as an input.  `parseFloat(...).toFixed(n)` is modelled as
exact decimal rounding of the integer chain value, which agrees with the
JavaScript pipeline whenever the value fits double precision.
-/

/-- Left-pad a digit string with zeros to width `n`. -/
def padZeros (n : Nat) (s : String) : String :=
  ⟨List.replicate (n - s.length) '0' ++ s.toList⟩

/-- Format an integer amount of `10^decimals`-denominated units as a decimal
string with `places` fractional digits, rounding half up — the model of
`parseFloat(ethers.formatUnits(v, decimals)).toFixed(places)`. -/
def fmtUnits (decimals places : Nat) (v : Nat) : String :=
  let scaled := (v * 10 ^ places * 2 + 10 ^ decimals) / (2 * 10 ^ decimals)
  toString (scaled / 10 ^ places) ++ "." ++ padZeros places (toString (scaled % 10 ^ places))

/-- The settled outcome of one ERC-20 token lookup:
`Promise.all([contract.balanceOf(addr), contract.decimals()])`. -/
structure TokenLookup where
  balance : Nat
  decimals : Nat
deriving DecidableEq, Repr

deriving instance DecidableEq for Except

/-- The settled outcomes of the three concurrent lookups of the `part_000`
balance fetcher (lines 1988-2059): native BNB plus the USDT and USDC token
contracts. -/
structure LookupsB where
  bnb : Except Unit Nat
  usdt : Except Unit TokenLookup
  usdc : Except Unit TokenLookup
deriving DecidableEq, Repr

/-- A published `balanceResults` set of the `part_000` fetcher. -/
structure BalanceSetB where
  BNB : String
  USDT : String
  USDC : String
deriving DecidableEq, Repr

/-- The `balanceResults` object the `part_000` `fetchBalances` publishes after
`await Promise.all(promises)`: each promise either stores its formatted value
or, from its own `catch`, stores `"Error"` for its symbol alone (the initial
defaults `"0.0000"`/`"0.00"` are always overwritten by one of the two). -/
def fetchBalancesB (o : LookupsB) : BalanceSetB :=
  { BNB := match o.bnb with
      | .ok v => fmtUnits 18 4 v
      | .error _ => "Error",
    USDT := match o.usdt with
      | .ok t => fmtUnits t.decimals 2 t.balance
      | .error _ => "Error",
    USDC := match o.usdc with
      | .ok t => fmtUnits t.decimals 2 t.balance
      | .error _ => "Error" }

/-- The walletapl variant's balance set (lines 943-1016): the token lookups
are commented out there, so only the native BNB entry remains. -/
structure BalanceSetW where
  BNB : String
deriving DecidableEq, Repr

/-- The walletapl `fetchBalances` settlement: one native lookup with the same
isolated `catch`. -/
def fetchBalancesW (bnb : Except Unit Nat) : BalanceSetW :=
  { BNB := match bnb with
      | .ok v => fmtUnits 18 4 v
      | .error _ => "Error" }

/-!
## The walletapl session state machine

One `AppState` record collects the React state hooks of the walletapl `App`
component plus the `AuthStorage` content.  Every user action and every settled
asynchronous operation is an `Ev`; the settled results of external calls
(server responses, wallet lookups, the clock) ride on the event as data.
`appStep` is the transition function.
-/

/-- The `step` state variable: which screen is active. -/
inductive Step where
  | connect | chooseAuth | register | login | chat
deriving DecidableEq, Repr

/-- The registration/login form fields. -/
structure FormState where
  username : String
  password : String
  email : String
  phone : String
  dob : String
deriving DecidableEq, Repr

/-- The `formErrors` object: one optional message per field. -/
structure FormErrors where
  username : Option String
  password : Option String
  email : Option String
  phone : Option String
  dob : Option String
deriving DecidableEq, Repr

/-- The walletapl `session` state: `{ user: {...}, token: "..." }`, set only
as a whole. -/
structure SessionData where
  user : UserRef
  token : String
deriving DecidableEq, Repr

/-- A chat message as the client sends and receives it. -/
structure Message where
  sender : String
  receiver : String
  text : String
deriving DecidableEq, Repr

/-- The response body of `POST /auth/login`. -/
structure LoginResponse where
  success : Bool
  message : Option String
  user : Option UserRef
  token : Option String
deriving DecidableEq, Repr

/-- The response body of `POST /auth/register` and `POST /messages`. -/
structure ApiStatus where
  success : Bool
  message : Option String
deriving DecidableEq, Repr

/-- The parsed body of `GET /users`: either the expected array or an error
object (possibly carrying a "token expired" message). -/
inductive UsersResponse where
  | users : List UserRef → UsersResponse
  | errBody : Option String → UsersResponse
deriving DecidableEq, Repr

/-- The parsed body of `GET /messages/:a/:b`. -/
inductive MessagesResponse where
  | msgs : List Message → MessagesResponse
  | errBody : Option String → MessagesResponse
deriving DecidableEq, Repr

/-- The whole client state of the walletapl `App` component, together with the
durable `AuthStorage` record (kept at the record level here; its JSON layer is
`authToJson`/`authFromJson`). -/
structure AppState where
  step : Step
  connectedAddress : String
  manualAddress : String
  balances : Option BalanceSetW
  loadingBalances : Bool
  form : FormState
  formErrors : FormErrors
  session : Option SessionData
  partner : Option UserRef
  message : String
  users : List UserRef
  msgs : List Message
  stored : Option AuthRecord
deriving DecidableEq, Repr

/-- The empty form. -/
def emptyForm : FormState := ⟨"", "", "", "", ""⟩

/-- An empty `formErrors` object. -/
def noFormErrors : FormErrors := ⟨none, none, none, none, none⟩

/-- The initial React state: step `connect`, everything empty. -/
def initState : AppState :=
  { step := .connect, connectedAddress := "", manualAddress := "",
    balances := none, loadingBalances := false,
    form := emptyForm, formErrors := noFormErrors,
    session := none, partner := none, message := "",
    users := [], msgs := [], stored := none }

/-- Truthiness of `session?.token`: a session must exist and its token must be
a nonempty string. -/
def sessionTokenTruthy : Option SessionData → Bool
  | none => false
  | some sd => sd.token ≠ ""

/-- Strip a stored record to its wallet fields, exactly the object
`{ address, signature, challenge, ts }` the app rebuilds when it drops a
login. -/
def walletOnly (a : AuthRecord) : AuthRecord :=
  ⟨a.address, a.signature, a.challenge, a.ts, none, none⟩

/-- `clearAllSessionData` (walletapl lines 1103-1111): reset session, partner,
users, messages, draft, form and form errors. -/
def clearAllSessionDataS (s : AppState) : AppState :=
  { s with session := none, partner := none, users := [], msgs := [],
           message := "", form := emptyForm, formErrors := noFormErrors }

/-- `clearWalletData` (walletapl lines 1114-1119). -/
def clearWalletDataS (s : AppState) : AppState :=
  { s with connectedAddress := "", manualAddress := "",
           balances := none, loadingBalances := false }

/-- `handleLogout` (walletapl lines 1121-1126): clear storage, all session and
wallet state, and return to the `connect` screen (`handleDisconnect`, lines
1128-1133, is identical). -/
def handleLogoutS (s : AppState) : AppState :=
  { clearWalletDataS (clearAllSessionDataS s) with stored := none, step := .connect }

/-- The settled result of one `fetchBalances(addr)` call: `none` when
`getCorrectProvider` yielded no provider (the fetch returns without
publishing), otherwise the settled native-coin lookup. -/
def FetchOutcome := Option (Except Unit Nat)

/-- Apply a settled `fetchBalances(addr)` call to the state: with no address
the fetch returns immediately; otherwise `balances` is first reset and then
either left unpublished (no provider) or set to the settled set, and the
loading flag always ends false. -/
def applyFetch (addr : String) (fo : FetchOutcome) (s : AppState) : AppState :=
  if addr = "" then s
  else
    match fo with
    | none => { s with balances := none, loadingBalances := false }
    | some o => { s with balances := some (fetchBalancesW o), loadingBalances := false }

/-- `navigateToStep` (walletapl lines 1136-1153): moving between the auth
screens clears the form; arriving at `chooseAuth` with a live session clears
all session data and narrows the stored record to its wallet fields; then the
step changes. -/
def navigateToStepS (newStep : Step) (s : AppState) : AppState :=
  let s1 :=
    if (s.step = .register ∨ s.step = .login) ∧
       (newStep = .register ∨ newStep = .login ∨ newStep = .chooseAuth) then
      { s with form := emptyForm, formErrors := noFormErrors }
    else s
  let s2 :=
    if newStep = .chooseAuth ∧ s1.session.isSome then
      let s3 := clearAllSessionDataS s1
      { s3 with stored := s3.stored.map walletOnly }
    else s1
  { s2 with step := newStep }

/-- The field-by-field validator run of `isFormValid` (walletapl lines
796-812; every form field has a validator, so the required-fallback branch is
dead). -/
def computeErrorsW (today : SDate) (f : FormState) : FormErrors :=
  ⟨usernameWs f.username, passwordWs f.password, emailWs f.email,
   phoneWs f.phone, dobWs today f.dob⟩

/-- `register` (walletapl lines 1156-1186): validate (which records the
errors), require a connected wallet, post, and on `success` clear the form and
go to the `login` screen; every failure path leaves the step alone. -/
def registerS (today : SDate) (resp : Except Unit ApiStatus) (s : AppState) : AppState :=
  let errs := computeErrorsW today s.form
  let s1 := { s with formErrors := errs }
  if errs ≠ noFormErrors then s1
  else if s.connectedAddress = "" then s1
  else
    match resp with
    | .ok r =>
        if r.success then { s1 with form := emptyForm, formErrors := noFormErrors, step := .login }
        else s1
    | .error _ => s1

/-- `login` (walletapl lines 1188-1221): validate username/password (recording
those two errors on failure); on a response carrying `success`, a user and a
(truthy) token, merge user and token into the stored record, set the session,
clear the form and enter `chat`; otherwise only an alert is shown. -/
def loginW (r : LoginResponse) (s : AppState) : AppState :=
  let uErr := usernameWs s.form.username
  let pErr := passwordWs s.form.password
  if uErr.isSome ∨ pErr.isSome then
    { s with formErrors := { s.formErrors with username := uErr, password := pErr } }
  else
    match r.user, r.token with
    | some u, some t =>
        if r.success ∧ t ≠ "" then
          { s with
            stored := some (match s.stored with
              | some a => { a with user := some u, token := some t }
              | none => ⟨none, none, none, none, some u, some t⟩),
            session := some ⟨u, t⟩,
            form := emptyForm, formErrors := noFormErrors,
            step := .chat }
        else s
    | _, _ => s

/-- `loadUsers` (walletapl lines 813-835): skipped without a session token;
an array response replaces the user list; a non-array response empties it and,
when it signals an expired token, forces a logout. -/
def loadUsersS (uo : Except Unit UsersResponse) (s : AppState) : AppState :=
  if sessionTokenTruthy s.session = false then s
  else
    match uo with
    | .ok (.users l) => { s with users := l }
    | .ok (.errBody m) =>
        let s1 := { s with users := [] }
        if m = some "Invalid or expired token" then handleLogoutS s1 else s1
    | .error _ => { s with users := [] }

/-- `loadMessages` (walletapl lines 837-858): same pattern for the message
thread, additionally requiring a selected partner. -/
def loadMessagesS (mo : Except Unit MessagesResponse) (s : AppState) : AppState :=
  if sessionTokenTruthy s.session = false ∨ s.partner = none then s
  else
    match mo with
    | .ok (.msgs l) => { s with msgs := l }
    | .ok (.errBody m) =>
        let s1 := { s with msgs := [] }
        if m = some "Invalid or expired token" then handleLogoutS s1 else s1
    | .error _ => { s with msgs := [] }

/-- `sendMsg` (walletapl lines 1224-1245).  The returned flag records whether
`api.sendMessage` was dispatched: with an empty (trimmed) draft, no partner or
no session token the function returns before any request; on a `success`
response the draft is cleared and the thread reloaded (`mo` is that reload's
settled result); otherwise only an alert is shown. -/
def sendMsgW (resp : Except Unit ApiStatus) (mo : Except Unit MessagesResponse)
    (s : AppState) : AppState × Bool :=
  if jsTrim s.message = "" ∨ s.partner = none ∨ sessionTokenTruthy s.session = false then
    (s, false)
  else
    match resp with
    | .ok r =>
        if r.success then (loadMessagesS mo { s with message := "" }, true)
        else (s, true)
    | .error _ => (s, true)

/-- `clearAllUsers` (walletapl lines 1247-1266): after explicit confirmation
and successful wipes, empty both lists, clear the session, narrow the stored
record to its wallet fields and return to `chooseAuth`; an error or a declined
confirmation changes nothing. -/
def clearAllUsersS (confirmed : Bool) (res : Except Unit Unit) (s : AppState) : AppState :=
  if confirmed = false then s
  else
    match res with
    | .ok _ =>
        let s1 := clearAllSessionDataS { s with users := [], msgs := [] }
        { s1 with stored := s1.stored.map walletOnly, step := .chooseAuth }
    | .error _ => s

/-- The startup restore effect (walletapl lines 873-911): with a stored
(truthy) address, restore the wallet connection and refresh balances; with a
stored user AND token, validate the user against `GET /users` and either enter
`chat` with the restored session or strip user/token and fall back to
`chooseAuth`; with wallet only, go to `chooseAuth`. -/
def restoreS (fo : FetchOutcome) (uo : Except Unit UsersResponse) (s : AppState) : AppState :=
  match s.stored with
  | none => s
  | some a =>
      match a.address with
      | none => s
      | some addr =>
          if addr = "" then s
          else
            let s1 := applyFetch addr fo { s with connectedAddress := addr }
            match a.user, a.token with
            | some u, some t =>
                if t ≠ "" then
                  match uo with
                  | .ok (.users l) =>
                      if l.any (fun x => x.username == u.username) then
                        { s1 with session := some ⟨u, t⟩, step := .chat }
                      else
                        { s1 with stored := some (walletOnly a), step := .chooseAuth }
                  | .ok (.errBody _) =>
                      { s1 with stored := some (walletOnly a), step := .chooseAuth }
                  | .error _ =>
                      { s1 with stored := some (walletOnly a), step := .chooseAuth }
                else { s1 with step := .chooseAuth }
            | _, _ => { s1 with step := .chooseAuth }

/-- The successful `connectMetaMask` path (walletapl lines 1019-1085): a
nonempty account list, a chain switch attempt, a signed challenge; the wallet
record `{address, signature, challenge, ts}` is stored, balances are fetched
and the step becomes `chooseAuth`. -/
def connectMMOkS (addr sig chal : String) (ts : Nat) (fo : FetchOutcome)
    (s : AppState) : AppState :=
  let s1 := { s with stored := some ⟨some addr, some sig, some chal, some ts, none, none⟩,
                     connectedAddress := addr }
  { applyFetch addr fo s1 with step := .chooseAuth }

/-- The `accountsChanged` listener (walletapl lines 1044-1062): an EMPTY
account list forces a logout; a nonempty list only adopts the new address,
refreshes balances and rewrites the stored record's address, explicitly
preserving the user session. -/
def accountsChangedS (accs : List String) (fo : FetchOutcome) (s : AppState) : AppState :=
  match accs with
  | [] => handleLogoutS s
  | newAddr :: _ =>
      let s1 := applyFetch newAddr fo { s with connectedAddress := newAddr }
      { s1 with stored := s1.stored.map (fun a => { a with address := some newAddr }) }

/-- The `chainChanged` listener (walletapl lines 1063-1065): refresh balances
for the connected address, nothing else. -/
def chainChangedS (fo : FetchOutcome) (s : AppState) : AppState :=
  if s.connectedAddress ≠ "" then applyFetch s.connectedAddress fo s else s

/-- `connectManual` (walletapl lines 1088-1100): a syntactically valid address
(the `ethers.isAddress` canonical-format test, `walletAddressMs` here) is
stored as `{address, ts}` with no signature, balances are fetched, and the
step becomes `chooseAuth`. -/
def connectManualS (ts : Nat) (fo : FetchOutcome) (s : AppState) : AppState :=
  if (walletAddressMs s.manualAddress).isSome then s
  else
    let addr := jsTrim s.manualAddress
    let s1 := { s with connectedAddress := addr,
                       stored := some ⟨some addr, none, none, some ts, none, none⟩ }
    { applyFetch addr fo s1 with step := .chooseAuth }

/-- The navigation targets the UI actually passes to `navigateToStep`
(`chooseAuth` from the back button, `register`/`login` from the chooser). -/
inductive NavTarget where
  | chooseAuth | register | login
deriving DecidableEq, Repr

/-- Interpret a navigation target as a step. -/
def NavTarget.toStep : NavTarget → Step
  | .chooseAuth => .chooseAuth
  | .register => .register
  | .login => .login

/-- A form field name, for typing events. -/
inductive FormField where
  | username | password | email | phone | dob
deriving DecidableEq, Repr

/-- `handleChange` (walletapl line 1268): overwrite one form field. -/
def setFormField (f : FormState) : FormField → String → FormState
  | .username, v => { f with username := v }
  | .password, v => { f with password := v }
  | .email, v => { f with email := v }
  | .phone, v => { f with phone := v }
  | .dob, v => { f with dob := v }

/-- Every user action and settled asynchronous completion of the walletapl
component, with the settled results of external calls as payload. -/
inductive Ev where
  | restore (fo : FetchOutcome) (uo : Except Unit UsersResponse)
  | connectMMOk (addr sig chal : String) (ts : Nat) (fo : FetchOutcome)
  | connectMMFail
  | accountsChanged (accs : List String) (fo : FetchOutcome)
  | chainChanged (fo : FetchOutcome)
  | connectManual (ts : Nat) (fo : FetchOutcome)
  | nav (t : NavTarget)
  | registerEv (today : SDate) (resp : Except Unit ApiStatus)
  | loginEv (resp : Except Unit LoginResponse)
  | sendMsgEv (resp : Except Unit ApiStatus) (mo : Except Unit MessagesResponse)
  | loadUsersEv (uo : Except Unit UsersResponse)
  | loadMessagesEv (mo : Except Unit MessagesResponse)
  | clearAllUsersEv (confirmed : Bool) (res : Except Unit Unit)
  | logoutEv
  | typeMessage (t : String)
  | typeManual (t : String)
  | editForm (f : FormField) (t : String)
  | selectPartner (p : Option UserRef)

/-- The transition function of the walletapl session state machine. -/
def appStep (s : AppState) : Ev → AppState
  | .restore fo uo => restoreS fo uo s
  | .connectMMOk addr sig chal ts fo => connectMMOkS addr sig chal ts fo s
  | .connectMMFail => s
  | .accountsChanged accs fo => accountsChangedS accs fo s
  | .chainChanged fo => chainChangedS fo s
  | .connectManual ts fo => connectManualS ts fo s
  | .nav t => navigateToStepS t.toStep s
  | .registerEv today resp => registerS today resp s
  | .loginEv resp =>
      match resp with
      | .ok r => loginW r s
      | .error _ => s
  | .sendMsgEv resp mo => (sendMsgW resp mo s).1
  | .loadUsersEv uo => loadUsersS uo s
  | .loadMessagesEv mo => loadMessagesS mo s
  | .clearAllUsersEv c res => clearAllUsersS c res s
  | .logoutEv => handleLogoutS s
  | .typeMessage t => { s with message := t }
  | .typeManual t => { s with manualAddress := t }
  | .editForm f t => { s with form := setFormField s.form f t }
  | .selectPartner p => { s with partner := p }

/-- States the walletapl client can actually be in: the initial render plus
anything an event chain produces. -/
inductive Reach : AppState → Prop
  | init : Reach initState
  | next (s : AppState) (e : Ev) : Reach s → Reach (appStep s e)

/-!
## The in-memory variant's login (`part_000` lines 451-480)

Only the pieces of the first (`in-memory`) `App` component that the claims
touch are modelled: its state and its `login` handler.  Its `session` state
holds the user object directly (no token), and its success guard checks
`result.success` alone.
-/

/-- The in-memory variant's component state (the fields `login` touches). -/
structure MState where
  step : Step
  connectedAddress : String
  form : FormState
  session : Option UserRef
  partner : Option UserRef
  message : String
  users : List UserRef
  msgs : List Message
  stored : Option AuthRecord
deriving DecidableEq, Repr

/-- `login` of the in-memory variant: validate username/password; on ANY
response with `success` it stores `result.user` (even if the response carried
none) as the session, merges it into the stored record, clears the form,
enters `chat` and reloads the user list (`uo` is that reload's settled
result). -/
def loginM (r : LoginResponse) (uo : Except Unit UsersResponse) (s : MState) : MState :=
  if (usernameMs s.form.username).isSome ∨ (passwordMs s.form.password).isSome then s
  else if r.success then
    { s with
      session := r.user,
      stored := some (match s.stored with
        | some a => { a with user := r.user }
        | none => ⟨none, none, none, none, r.user, none⟩),
      form := emptyForm,
      step := .chat,
      users := match uo with | .ok (.users l) => l | _ => [] }
  else s

/-- A concrete in-memory-variant state sitting on the login screen with a
valid form. -/
def loginMState : MState :=
  { step := .login, connectedAddress := "0xaaaaaaaaaaaaaaaaaaaaaaaaaaaaaaaaaaaaaaaa",
    form := { username := "alice", password := "Secret12", email := "", phone := "", dob := "" },
    session := none, partner := none, message := "", users := [], msgs := [],
    stored := some ⟨some "0xaaaaaaaaaaaaaaaaaaaaaaaaaaaaaaaaaaaaaaaa", none, none, some 7, none, none⟩ }

/-- C6 counterexample: the in-memory variant's `login`, given the response
`{success: true}` with NO user reference (and no token), still transitions to
`chat` — with an absent session user — so the claim's "only when the server
response contains ... a user reference" fails on that variant. -/
theorem loginM_chat_without_user :
    (loginM ⟨true, none, none, none⟩ (.ok (.users [])) loginMState).step = Step.chat ∧
    (LoginResponse.user ⟨true, none, none, none⟩) = none ∧
    (loginM ⟨true, none, none, none⟩ (.ok (.users [])) loginMState).session = none := by
  refine ⟨?_, rfl, ?_⟩ <;> decide

/-- C6 (amended): the walletapl `login` enters `chat` only when the response
has `success`, a user and a truthy token, and then it persists the session by
merging user and token into the stored record, preserving the wallet fields;
the in-memory variant's `login` instead enters `chat` whenever the response
has `success` (even with no user reference), merging whatever `user` value the
response carried, wallet fields likewise preserved. -/
theorem login_guard_and_merge :
    (∀ (s : AppState) (r : LoginResponse), s.step = Step.login →
      (loginW r s).step = Step.chat →
      r.success = true ∧ r.user.isSome = true ∧ jsTruthyStr r.token = true) ∧
    (∀ (s : AppState) (r : LoginResponse) (a : AuthRecord) (u : UserRef) (t : String),
      s.stored = some a → r.success = true → r.user = some u → r.token = some t → t ≠ "" →
      usernameWs s.form.username = none → passwordWs s.form.password = none →
      loginW r s =
        { s with stored := some { a with user := some u, token := some t },
                 session := some ⟨u, t⟩,
                 form := emptyForm, formErrors := noFormErrors, step := .chat }) ∧
    (∀ (s : MState) (r : LoginResponse) (uo : Except Unit UsersResponse),
      r.success = true →
      usernameMs s.form.username = none → passwordMs s.form.password = none →
      (loginM r uo s).step = Step.chat ∧
      (loginM r uo s).session = r.user ∧
      (loginM r uo s).stored = some (match s.stored with
        | some a => { a with user := r.user }
        | none => ⟨none, none, none, none, r.user, none⟩)) := by
  refine ⟨?_, ?_, ?_⟩
  · intro s r hstep h
    unfold loginW at h
    by_cases hg : (usernameWs s.form.username).isSome ∨ (passwordWs s.form.password).isSome
    · rw [if_pos hg] at h
      have h' : s.step = Step.chat := h
      rw [hstep] at h'
      exact absurd h' (by decide)
    · rw [if_neg hg] at h
      rcases hu : r.user with _ | u <;> rcases ht : r.token with _ | t <;>
        simp only [hu, ht] at h
      · have h' : s.step = Step.chat := h
        rw [hstep] at h'; exact absurd h' (by decide)
      · have h' : s.step = Step.chat := h
        rw [hstep] at h'; exact absurd h' (by decide)
      · have h' : s.step = Step.chat := h
        rw [hstep] at h'; exact absurd h' (by decide)
      · by_cases hc : r.success ∧ t ≠ ""
        · exact ⟨hc.1, by simp [hu], by simp [jsTruthyStr, ht, hc.2]⟩
        · rw [if_neg hc] at h
          have h' : s.step = Step.chat := h
          rw [hstep] at h'; exact absurd h' (by decide)
  · intro s r a u t hst hsucc hu ht htne hun hpw
    unfold loginW
    have hg : ¬ ((usernameWs s.form.username).isSome ∨ (passwordWs s.form.password).isSome) := by
      simp [hun, hpw]
    rw [if_neg hg]
    simp only [hu, ht, hst]
    rw [if_pos ⟨hsucc, htne⟩]
  · intro s r uo hsucc hun hpw
    unfold loginM
    have hg : ¬ ((usernameMs s.form.username).isSome ∨ (passwordMs s.form.password).isSome) := by
      simp [hun, hpw]
    rw [if_neg hg, if_pos hsucc]
    exact ⟨rfl, rfl, rfl⟩

/-- Witness for the amended C6: a concrete walletapl login succeeding with
user and token (exercising the merge equation) and the concrete in-memory
transition. -/
theorem login_guard_and_merge_witness :
    loginW ⟨true, none, some ⟨"alice", "0xaa"⟩, some "tok"⟩
        { initState with step := Step.login,
                         form := { username := "alice", password := "Passw0rd!",
                                   email := "", phone := "", dob := "" },
                         stored := some ⟨some "0xaa", some "sg", some "ch", some 3, none, none⟩ } =
      { initState with step := Step.chat,
                       form := emptyForm,
                       session := some ⟨⟨"alice", "0xaa"⟩, "tok"⟩,
                       stored := some ⟨some "0xaa", some "sg", some "ch", some 3,
                                        some ⟨"alice", "0xaa"⟩, some "tok"⟩ } ∧
    (loginM ⟨true, none, some ⟨"alice", "0xaa"⟩, none⟩ (.ok (.users [])) loginMState).step
      = Step.chat := by
  constructor
  · have h := login_guard_and_merge.2.1
      { initState with step := Step.login,
                       form := { username := "alice", password := "Passw0rd!",
                                 email := "", phone := "", dob := "" },
                       stored := some ⟨some "0xaa", some "sg", some "ch", some 3, none, none⟩ }
      ⟨true, none, some ⟨"alice", "0xaa"⟩, some "tok"⟩
      ⟨some "0xaa", some "sg", some "ch", some 3, none, none⟩
      ⟨"alice", "0xaa"⟩ "tok" rfl rfl rfl rfl (by decide) (by decide) (by decide)
    exact h.trans (by decide)
  · exact ((login_guard_and_merge.2.2) loginMState
      ⟨true, none, some ⟨"alice", "0xaa"⟩, none⟩ (.ok (.users [])) rfl (by decide) (by decide)).1

/-- C5: from `chat` with a live session, the "switch account" navigation
(`navigateToStep("chooseAuth")`) lands on `chooseAuth`, narrows the stored
record to its wallet fields (`user`/`token` dropped; address, signature,
challenge and timestamp unchanged), clears every in-memory piece of
user/message/form state, and leaves the in-memory wallet linkage alone. -/
theorem switch_account_from_chat (s : AppState)
    (hstep : s.step = Step.chat) (hses : s.session.isSome = true) :
    (navigateToStepS Step.chooseAuth s).step = Step.chooseAuth ∧
    (navigateToStepS Step.chooseAuth s).stored = s.stored.map walletOnly ∧
    (navigateToStepS Step.chooseAuth s).session = none ∧
    (navigateToStepS Step.chooseAuth s).partner = none ∧
    (navigateToStepS Step.chooseAuth s).users = [] ∧
    (navigateToStepS Step.chooseAuth s).msgs = [] ∧
    (navigateToStepS Step.chooseAuth s).message = "" ∧
    (navigateToStepS Step.chooseAuth s).form = emptyForm ∧
    (navigateToStepS Step.chooseAuth s).formErrors = noFormErrors ∧
    (navigateToStepS Step.chooseAuth s).connectedAddress = s.connectedAddress ∧
    (navigateToStepS Step.chooseAuth s).balances = s.balances := by
  have hne : ¬ ((s.step = Step.register ∨ s.step = Step.login) ∧
      (Step.chooseAuth = Step.register ∨ Step.chooseAuth = Step.login ∨
        Step.chooseAuth = Step.chooseAuth)) := by
    rw [hstep]; rintro ⟨h | h, -⟩ <;> exact absurd h (by decide)
  unfold navigateToStepS
  rw [if_neg hne]
  dsimp only
  rw [if_pos ⟨rfl, hses⟩]
  exact ⟨rfl, rfl, rfl, rfl, rfl, rfl, rfl, rfl, rfl, rfl, rfl⟩

/-- A concrete walletapl state in `chat` with a logged-in session and a fully
populated stored record. -/
def chatStateEx : AppState :=
  { step := .chat,
    connectedAddress := "0xbbbbbbbbbbbbbbbbbbbbbbbbbbbbbbbbbbbbbbbb",
    manualAddress := "", balances := none, loadingBalances := false,
    form := emptyForm, formErrors := noFormErrors,
    session := some ⟨⟨"alice", "0xbbbbbbbbbbbbbbbbbbbbbbbbbbbbbbbbbbbbbbbb"⟩, "tok"⟩,
    partner := none, message := "",
    users := [], msgs := [],
    stored := some ⟨some "0xbbbbbbbbbbbbbbbbbbbbbbbbbbbbbbbbbbbbbbbb",
                    some "sig0", some "chal0", some 5,
                    some ⟨"alice", "0xbbbbbbbbbbbbbbbbbbbbbbbbbbbbbbbbbbbbbbbb"⟩,
                    some "tok"⟩ }

/-- Witness for C5 at `chatStateEx`. -/
theorem switch_account_from_chat_witness :
    chatStateEx.step = Step.chat ∧ chatStateEx.session.isSome = true ∧
    (navigateToStepS Step.chooseAuth chatStateEx).step = Step.chooseAuth ∧
    (navigateToStepS Step.chooseAuth chatStateEx).stored = chatStateEx.stored.map walletOnly :=
  ⟨rfl, rfl, (switch_account_from_chat chatStateEx rfl rfl).1,
   (switch_account_from_chat chatStateEx rfl rfl).2.1⟩

/-- C1 counterexample: from `chatStateEx` (a `chat` state with a live
session), an externally triggered `accountsChanged` with a NONEMPTY account
list leaves the session in place, stays on the `chat` screen and keeps the
stored record's user — no forced logout happens, contrary to the claim. -/
theorem accountsChanged_no_logout_cx :
    (appStep chatStateEx
        (.accountsChanged ["0xcccccccccccccccccccccccccccccccccccccccc"] none)).session
      = chatStateEx.session ∧
    (appStep chatStateEx
        (.accountsChanged ["0xcccccccccccccccccccccccccccccccccccccccc"] none)).step
      = Step.chat ∧
    chatStateEx.session.isSome = true ∧
    ((appStep chatStateEx
        (.accountsChanged ["0xcccccccccccccccccccccccccccccccccccccccc"] none)).stored.bind
      AuthRecord.user).isSome = true := by
  refine ⟨?_, ?_, rfl, ?_⟩ <;> decide

/-- C1 (amended): an externally triggered account change with a nonempty
account list preserves the session and the current screen, only adopting the
new address (in memory and in the stored record) and refreshing balances; the
listener forces a logout ONLY when the account list is empty; and a chain
change only refreshes balances, touching no session, storage, user, message
or form state. -/
theorem accountsChanged_updates_address_only :
    (∀ (s : AppState) (a : String) (rest : List String) (fo : FetchOutcome),
      (appStep s (.accountsChanged (a :: rest) fo)).session = s.session ∧
      (appStep s (.accountsChanged (a :: rest) fo)).step = s.step ∧
      (appStep s (.accountsChanged (a :: rest) fo)).connectedAddress = a ∧
      (appStep s (.accountsChanged (a :: rest) fo)).stored =
        s.stored.map (fun r => { r with address := some a })) ∧
    (∀ (s : AppState) (fo : FetchOutcome),
      appStep s (.accountsChanged [] fo) = handleLogoutS s) ∧
    (∀ (s : AppState) (fo : FetchOutcome),
      (appStep s (.chainChanged fo)).session = s.session ∧
      (appStep s (.chainChanged fo)).step = s.step ∧
      (appStep s (.chainChanged fo)).stored = s.stored ∧
      (appStep s (.chainChanged fo)).users = s.users ∧
      (appStep s (.chainChanged fo)).msgs = s.msgs ∧
      (appStep s (.chainChanged fo)).message = s.message ∧
      (appStep s (.chainChanged fo)).form = s.form ∧
      (appStep s (.chainChanged fo)).connectedAddress = s.connectedAddress) := by
  refine ⟨?_, ?_, ?_⟩
  · intro s a rest fo
    rcases fo with _ | o <;> by_cases ha : a = "" <;>
      simp [appStep, accountsChangedS, applyFetch, ha]
  · intro s fo; rfl
  · intro s fo
    rcases fo with _ | o <;> by_cases ha : s.connectedAddress = "" <;>
      simp [appStep, chainChangedS, applyFetch, ha]

/-- C10: whenever the draft trims to empty, no partner is selected, or the
session token is missing, `sendMsg` dispatches no request (`false` flag) and
returns the state unchanged in every component. -/
theorem sendMsg_guard_no_request (s : AppState) (resp : Except Unit ApiStatus)
    (mo : Except Unit MessagesResponse)
    (h : jsTrim s.message = "" ∨ s.partner = none ∨ sessionTokenTruthy s.session = false) :
    sendMsgW resp mo s = (s, false) := by
  unfold sendMsgW
  rw [if_pos h]

/-- A state whose draft is whitespace only (it trims to empty). -/
def sendStateEx : AppState :=
  { chatStateEx with message := "   ", partner := some ⟨"bob", "0xdd"⟩ }

/-- Witness for C10: at `sendStateEx` the guard fires on the empty-trim
disjunct and `sendMsg` is a no-op that sends nothing. -/
theorem sendMsg_guard_no_request_witness :
    jsTrim sendStateEx.message = "" ∧
    sendMsgW (.ok ⟨true, none⟩) (.error ()) sendStateEx = (sendStateEx, false) :=
  ⟨by decide, sendMsg_guard_no_request sendStateEx (.ok ⟨true, none⟩) (.error ())
    (Or.inl (by decide))⟩

/-- C7: every balance lookup fails in isolation: the published set maps each
symbol to `"Error"` exactly when ITS lookup failed and to its own formatted
value otherwise; each symbol's published entry is a function of that symbol's
lookup alone; and the settlement is a total function (the fetch always
completes, publishing only after all lookups have settled).  The walletapl
fetcher's single native entry behaves identically. -/
theorem balance_lookups_fail_in_isolation :
    (∀ o : LookupsB,
      (o.bnb = .error () → (fetchBalancesB o).BNB = "Error") ∧
      (∀ v, o.bnb = .ok v → (fetchBalancesB o).BNB = fmtUnits 18 4 v) ∧
      (o.usdt = .error () → (fetchBalancesB o).USDT = "Error") ∧
      (∀ t, o.usdt = .ok t → (fetchBalancesB o).USDT = fmtUnits t.decimals 2 t.balance) ∧
      (o.usdc = .error () → (fetchBalancesB o).USDC = "Error") ∧
      (∀ t, o.usdc = .ok t → (fetchBalancesB o).USDC = fmtUnits t.decimals 2 t.balance)) ∧
    (∀ o p : LookupsB, o.bnb = p.bnb → (fetchBalancesB o).BNB = (fetchBalancesB p).BNB) ∧
    (∀ o p : LookupsB, o.usdt = p.usdt → (fetchBalancesB o).USDT = (fetchBalancesB p).USDT) ∧
    (∀ o p : LookupsB, o.usdc = p.usdc → (fetchBalancesB o).USDC = (fetchBalancesB p).USDC) ∧
    (∀ b, (fetchBalancesW b).BNB = (fetchBalancesB ⟨b, .error (), .error ()⟩).BNB) := by
  refine ⟨?_, ?_, ?_, ?_, ?_⟩
  · intro o
    refine ⟨fun h => ?_, fun v h => ?_, fun h => ?_, fun t h => ?_, fun h => ?_, fun t h => ?_⟩ <;>
      simp [fetchBalancesB, h]
  · intro o p h; simp [fetchBalancesB, h]
  · intro o p h; simp [fetchBalancesB, h]
  · intro o p h; simp [fetchBalancesB, h]
  · intro b; cases b <;> rfl

/-- The spec's scenario: the native lookup throws while the USDT token lookup
succeeds with 5 USDT (18 decimals). -/
def scenarioLookups : LookupsB :=
  ⟨.error (), .ok ⟨5000000000000000000, 18⟩, .error ()⟩

/-- Witness for C7, instantiating the spec's scenario: the native symbol shows
`"Error"`, the successful token still shows its formatted `"5.00"`, and the
fetch completed with a full set. -/
theorem balance_lookups_fail_in_isolation_witness :
    scenarioLookups.bnb = Except.error () ∧
    (fetchBalancesB scenarioLookups).BNB = "Error" ∧
    (fetchBalancesB scenarioLookups).USDT = "5.00" ∧
    (fetchBalancesB scenarioLookups).USDC = "Error" := by
  refine ⟨rfl, (balance_lookups_fail_in_isolation.1 scenarioLookups).1 rfl, ?_, ?_⟩
  · have h := (balance_lookups_fail_in_isolation.1 scenarioLookups).2.2.2.1
      ⟨5000000000000000000, 18⟩ rfl
    exact h.trans (by decide)
  · exact (balance_lookups_fail_in_isolation.1 scenarioLookups).2.2.2.2.1 rfl

/-- `fetchBalances` only ever touches the balance display: the step is
untouched. -/
lemma applyFetch_step (addr : String) (fo : FetchOutcome) (s : AppState) :
    (applyFetch addr fo s).step = s.step := by
  unfold applyFetch
  split
  · rfl
  · split <;> rfl

/-- `fetchBalances` leaves the session alone. -/
lemma applyFetch_session (addr : String) (fo : FetchOutcome) (s : AppState) :
    (applyFetch addr fo s).session = s.session := by
  unfold applyFetch
  split
  · rfl
  · split <;> rfl

/-- C9: in every reachable state of the walletapl session state machine, the
screen is `chat` only if a session (which always carries a user) is present.
Both paths that enter `chat` — the startup restore and a successful login —
set the session first, and every path that clears the session also leaves
`chat`. -/
theorem chat_step_requires_session (s : AppState) (hr : Reach s) :
    s.step = Step.chat → s.session.isSome = true := by
  induction hr with
  | init => intro h; nomatch h
  | next s e hs ih =>
      cases e with
      | restore fo uo =>
          show (restoreS fo uo s).step = Step.chat → (restoreS fo uo s).session.isSome = true
          unfold restoreS
          dsimp only
          repeat' split
          all_goals first | exact ih | (intro _; rfl) | (intro h; nomatch h)
      | connectMMOk addr sig chal ts fo =>
          intro h; nomatch h
      | connectMMFail => exact ih
      | accountsChanged accs fo =>
          cases accs with
          | nil => intro h; nomatch h
          | cons a rest =>
              show (accountsChangedS (a :: rest) fo s).step = Step.chat →
                (accountsChangedS (a :: rest) fo s).session.isSome = true
              unfold accountsChangedS
              dsimp only
              rw [show (applyFetch a fo { s with connectedAddress := a }).step = s.step from
                    applyFetch_step a fo { s with connectedAddress := a },
                  show (applyFetch a fo { s with connectedAddress := a }).session = s.session from
                    applyFetch_session a fo { s with connectedAddress := a }]
              exact ih
      | chainChanged fo =>
          show (chainChangedS fo s).step = Step.chat → (chainChangedS fo s).session.isSome = true
          unfold chainChangedS
          split
          · rw [applyFetch_step, applyFetch_session]; exact ih
          · exact ih
      | connectManual ts fo =>
          show (connectManualS ts fo s).step = Step.chat →
            (connectManualS ts fo s).session.isSome = true
          unfold connectManualS
          dsimp only
          split
          · exact ih
          · intro h; nomatch h
      | nav t =>
          show (navigateToStepS t.toStep s).step = Step.chat →
            (navigateToStepS t.toStep s).session.isSome = true
          cases t <;> (intro h; nomatch h)
      | registerEv today resp =>
          show (registerS today resp s).step = Step.chat →
            (registerS today resp s).session.isSome = true
          unfold registerS
          dsimp only
          repeat' split
          all_goals first | exact ih | (intro h; nomatch h)
      | loginEv resp =>
          cases resp with
          | error e => exact ih
          | ok r =>
              show (loginW r s).step = Step.chat → (loginW r s).session.isSome = true
              unfold loginW
              dsimp only
              repeat' split
              all_goals first | exact ih | (intro _; rfl)
      | sendMsgEv resp mo =>
          show ((sendMsgW resp mo s).1).step = Step.chat →
            ((sendMsgW resp mo s).1).session.isSome = true
          unfold sendMsgW loadMessagesS handleLogoutS clearWalletDataS clearAllSessionDataS
          dsimp only
          repeat' split
          all_goals first | exact ih | (intro h; nomatch h)
      | loadUsersEv uo =>
          show (loadUsersS uo s).step = Step.chat → (loadUsersS uo s).session.isSome = true
          unfold loadUsersS handleLogoutS clearWalletDataS clearAllSessionDataS
          dsimp only
          repeat' split
          all_goals first | exact ih | (intro h; nomatch h)
      | loadMessagesEv mo =>
          show (loadMessagesS mo s).step = Step.chat → (loadMessagesS mo s).session.isSome = true
          unfold loadMessagesS handleLogoutS clearWalletDataS clearAllSessionDataS
          dsimp only
          repeat' split
          all_goals first | exact ih | (intro h; nomatch h)
      | clearAllUsersEv c res =>
          show (clearAllUsersS c res s).step = Step.chat →
            (clearAllUsersS c res s).session.isSome = true
          unfold clearAllUsersS clearAllSessionDataS
          dsimp only
          repeat' split
          all_goals first | exact ih | (intro h; nomatch h)
      | logoutEv => intro h; nomatch h
      | typeMessage t => exact ih
      | typeManual t => exact ih
      | editForm f t => exact ih
      | selectPartner p => exact ih

/-- A reachable run: connect via MetaMask, open the login screen, type valid
credentials, and log in successfully. -/
def run1 : AppState :=
  appStep initState (.connectMMOk "0xaaaaaaaaaaaaaaaaaaaaaaaaaaaaaaaaaaaaaaaa" "sg" "ch" 0 none)

/-- Second step of the run: navigate to the login screen. -/
def run2 : AppState := appStep run1 (.nav .login)

/-- Third step: type a username. -/
def run3 : AppState := appStep run2 (.editForm .username "alice_1")

/-- Fourth step: type a password. -/
def run4 : AppState := appStep run3 (.editForm .password "Passw0rd!")

/-- Fifth step: a successful login response with user and token. -/
def run5 : AppState :=
  appStep run4 (.loginEv (.ok ⟨true, none,
    some ⟨"alice_1", "0xaaaaaaaaaaaaaaaaaaaaaaaaaaaaaaaaaaaaaaaa"⟩, some "tok"⟩))

/-- Witness for C9: `run5` is reachable, sits on the `chat` screen, and the
theorem yields its session. -/
theorem chat_step_requires_session_witness :
    Reach run5 ∧ run5.step = Step.chat ∧ run5.session.isSome = true := by
  have hreach : Reach run5 :=
    Reach.next run4 _ (Reach.next run3 _ (Reach.next run2 _
      (Reach.next run1 _ (Reach.next initState _ Reach.init))))
  exact ⟨hreach, by decide, chat_step_requires_session run5 hreach (by decide)⟩
